import Mathlib

/-!
Verification of the rate-limit tracker in `pyfacebook/ratelimit.py`.

Shallow embedding conventions:
* Python dicts become association lists (`dictGet` / `dictSet` reproduce
  `d.get(k)` and `d[k] = v`, preserving insertion order as CPython does);
* JSON values produced by `json.loads` are the inductive type `Json`
  (numbers are modelled as integers; the usage headers carry integers);
* `json.loads` itself is Python library code: a header value is modelled
  as its raw text together with the result `json.loads` would return on
  it (`HeaderValue.loads = none` means the text is not valid JSON);
* Python exceptions become the explicit error type `PyErr`; a function
  that can raise returns `Except PyErr _`, and a mutating method that can
  raise returns the (possibly partially mutated) state paired with
  `Option PyErr`;
* wall-clock time (`time.time()`) is passed explicitly as a `now : Int`
  argument.
-/

/-- Python exception classes that the rate-limit code can raise or catch. -/
inductive PyErr where
  | typeError (msg : String)
  | jsonDecodeError
  | attributeError (name : String)
  | indexError
  | keyError (key : String)
deriving DecidableEq

/-- JSON values as returned by `json.loads`. -/
inductive Json where
  | null
  | bool (b : Bool)
  | num (n : Int)
  | str (s : String)
  | arr (elems : List Json)
  | obj (fields : List (String × Json))

/-- `d.get(k)` on a Python dict modelled as an association list. -/
def dictGet {α : Type} : List (String × α) → String → Option α
  | [], _ => none
  | (k, v) :: rest, key => if k = key then some v else dictGet rest key

/-- `d[k] = v` on a Python dict: replace in place, or append a new binding
(CPython preserves insertion order). -/
def dictSet {α : Type} : List (String × α) → String → α → List (String × α)
  | [], key, v => [(key, v)]
  | (k, w) :: rest, key, v =>
    if k = key then (key, v) :: rest else (k, w) :: dictSet rest key v

/-- A raw HTTP header value together with the result `json.loads` would
produce on its text (`none` when the text is not valid JSON). -/
structure HeaderValue where
  raw : String
  loads : Option Json

/-- The response-header mapping handed to the trackers. -/
abbrev Headers := List (String × HeaderValue)

/-- `RateLimitData` (an `attrs` class): five keyword fields with defaults
`call_count = 0`, `total_cputime = 0`, `total_time = 0`, `type = None`,
`estimated_time_to_regain_access = None`.  `attrs` does not validate types
at runtime, so each field holds whatever JSON value the caller passed. -/
structure RateLimitData where
  call_count : Json
  total_cputime : Json
  total_time : Json
  type : Json
  estimated_time_to_regain_access : Json

/-- The `attrs` defaults of `RateLimitData` (Python `None` is `Json.null`). -/
def RateLimitData.defaults : RateLimitData :=
  ⟨Json.num 0, Json.num 0, Json.num 0, Json.null, Json.null⟩

/-- Keyword assignment loop of `RateLimitData(**kwargs)` starting from a
partially filled record: a known key sets its field, an unknown key raises
`TypeError` (as Python does for an unexpected keyword argument). -/
def RateLimitData.ofKwargsFrom (r : RateLimitData) :
    List (String × Json) → Except PyErr RateLimitData
  | [] => Except.ok r
  | (k, v) :: rest =>
    if k = "call_count" then ofKwargsFrom { r with call_count := v } rest
    else if k = "total_cputime" then ofKwargsFrom { r with total_cputime := v } rest
    else if k = "total_time" then ofKwargsFrom { r with total_time := v } rest
    else if k = "type" then ofKwargsFrom { r with type := v } rest
    else if k = "estimated_time_to_regain_access" then
      ofKwargsFrom { r with estimated_time_to_regain_access := v } rest
    else Except.error (PyErr.typeError
      ("__init__() got an unexpected keyword argument " ++ k))

/-- `RateLimitData(**kwargs)` for a keyword dictionary. -/
def RateLimitData.ofKwargs (kvs : List (String × Json)) : Except PyErr RateLimitData :=
  RateLimitData.ofKwargsFrom RateLimitData.defaults kvs

/-- `get_interval(usage_count)`: `interval = 1` then the `if`/`elif` chain of
the source; no branch handles `usage_count == 100`, which therefore keeps
the initial value 1. -/
def get_interval (usage_count : Int) : Int :=
  if usage_count < 20 then 1
  else if usage_count < 50 then 3
  else if usage_count < 80 then 5
  else if usage_count < 90 then 300
  else if usage_count < 100 then 600
  else if usage_count > 100 then 1200
  else 1

namespace RateLimit

/-- The value stored under `self.__dict__["resources"]`: `{}` and the
`resources["app"] = RateLimitData(...)` path keep a dict, while the
business-use-case path assigns a bare list of records. -/
inductive ResVal where
  | dict (d : List (String × RateLimitData))
  | list (l : List RateLimitData)

/-- A value sitting in the instance `__dict__` (or found on the class). -/
inductive Attr where
  | res (r : ResVal)
  | str (s : String)
  | num (n : Int)

/-- A `RateLimit` instance is its `__dict__`: `__init__` writes exactly the
keys `"resources"` and `"_type"`, and no method writes any other key. -/
structure State where
  instDict : List (String × Attr)

/-- `RateLimit(rate_type)`: `self.__dict__["resources"] = {}` and
`self._type = rate_type`. -/
def init (rate_type : String) : State :=
  ⟨[("resources", Attr.res (ResVal.dict [])), ("_type", Attr.str rate_type)]⟩

/-- Python attribute lookup `self.<name>`: the instance `__dict__` first,
then the class body (which has only the data attribute
`DEFAULT_TIME_WINDOW = 60 * 60`); otherwise `AttributeError`. -/
def getattr (s : State) (name : String) : Except PyErr Attr :=
  match dictGet s.instDict name with
  | some v => Except.ok v
  | none =>
    if name = "DEFAULT_TIME_WINDOW" then Except.ok (Attr.num 3600)
    else Except.error (PyErr.attributeError name)

/-- `parse_headers(headers, key)`: returns the parsed JSON paired with the
error-log lines emitted.  `headers.get(key)` missing or falsy (empty
string) short-circuits to `None` — silently, with no log, even though the
empty string is not valid JSON; a present truthy value is `json.loads`ed,
and a decode failure is caught, logged (message carrying the key and the
raw value) and turned into `None`.  The text `null` decodes to Python
`None`, which the function returns as-is: indistinguishable in Python from
the no-value return, so it is `none` here as well (no log). -/
def parse_headers (headers : Headers) (key : String) : Option Json × List String :=
  match dictGet headers key with
  | none => (none, [])
  | some usage =>
    if usage.raw = "" then (none, [])
    else
      match usage.loads with
      | some Json.null => (none, [])
      | some data => (some data, [])
      | none =>
        (none, ["Exception in parse " ++ key ++ " data error. Usage is: " ++
                usage.raw ++ ". errors: JSONDecodeError"])

/-- `RateLimitData(**item)` for an arbitrary JSON value: only a JSON object
unpacks as a mapping; anything else raises `TypeError`. -/
def buildItem : Json → Except PyErr RateLimitData
  | Json.obj kvs => RateLimitData.ofKwargs kvs
  | _ => Except.error (PyErr.typeError "argument after ** must be a mapping")

/-- `[RateLimitData(**item) for item in items]`: a JSON array maps
element-wise; iterating a nonempty dict yields its string keys and
iterating a nonempty string yields characters, and `**` on a string raises
`TypeError`; empty iterables give `[]`; non-iterables raise `TypeError`. -/
def buildItems : Json → Except PyErr (List RateLimitData)
  | Json.arr elems => elems.mapM buildItem
  | Json.obj [] => Except.ok []
  | Json.obj (_ :: _) => Except.error (PyErr.typeError "argument after ** must be a mapping")
  | Json.str t =>
    if t = "" then Except.ok []
    else Except.error (PyErr.typeError "argument after ** must be a mapping")
  | _ => Except.error (PyErr.typeError "object is not iterable")

/-- The body of step 1 for a present, non-null `app_usage` value: evaluate
`RateLimitData(**app_usage)` and then perform
`self.__dict__["resources"]["app"] = ...` (item assignment fails with
`TypeError` when `resources` currently holds a list). -/
def applyAppUsage (s : State) (app_usage : Json) : State × Option PyErr :=
  match buildItem app_usage with
  | Except.error e => (s, some e)
  | Except.ok r =>
    match dictGet s.instDict "resources" with
    | some (Attr.res (ResVal.dict d)) =>
      (⟨dictSet s.instDict "resources" (Attr.res (ResVal.dict (dictSet d "app" r)))⟩, none)
    | some (Attr.res (ResVal.list _)) =>
      (s, some (PyErr.typeError "list indices must be integers or slices, not str"))
    | some _ => (s, some (PyErr.typeError "object does not support item assignment"))
    | none => (s, some (PyErr.keyError "resources"))

/-- Step 1 of `set_limit` with its `if app_usage is not None:` guard:
Python `json.loads` turns the text `null` into `None`, so a JSON-null
header is skipped exactly like an unparsed one. -/
def setAppScope (s : State) : Option Json → State × Option PyErr
  | none => (s, none)
  | some Json.null => (s, none)
  | some app_usage => applyAppUsage s app_usage

/-- The `for business_id, items in business_usage.items()` loop: each
iteration rebinds `self.__dict__["resources"]` to the bare list built from
that id's items; a failing list comprehension leaves the state as of the
previous iteration and raises. -/
def businessLoop (s : State) : List (String × Json) → State × Option PyErr
  | [] => (s, none)
  | (_, items) :: rest =>
    match buildItems items with
    | Except.error e => (s, some e)
    | Except.ok recs =>
      businessLoop ⟨dictSet s.instDict "resources" (Attr.res (ResVal.list recs))⟩ rest

/-- Step 2 of `set_limit` with its `is not None` guard (a JSON-null header
decodes to Python `None` and is skipped like an unparsed one):
`business_usage.items()` requires a dict (`AttributeError` otherwise),
then the replacement loop runs. -/
def setBusinessScope (s : State) : Option Json → State × Option PyErr
  | none => (s, none)
  | some Json.null => (s, none)
  | some (Json.obj kvs) => businessLoop s kvs
  | some _ => (s, some (PyErr.attributeError "items"))

/-- `set_limit(headers)`: app scope first, then — only if no exception was
raised — the business-use-case scope. -/
def set_limit (headers : Headers) (s : State) : State × Option PyErr :=
  match setAppScope s (parse_headers headers "x-app-usage").fst with
  | (s1, some e) => (s1, some e)
  | (s1, none) =>
    setBusinessScope s1 (parse_headers headers "x-business-use-case-usage").fst

/-- Python `max` / `<` need a number here; only numeric attributes compare
with the integer tier bounds without raising `TypeError`. -/
def Attr.asNum : Attr → Except PyErr Int
  | Attr.num n => Except.ok n
  | _ => Except.error (PyErr.typeError "not supported between instances")

/-- `get_sleep_interval()`: evaluates `self.call_count`, `self.total_time`,
`self.total_cputime` in that order (so a missing `call_count` attribute
raises first), then `get_interval(max(...))`. -/
def get_sleep_interval (s : State) : Except PyErr Int :=
  match getattr s "call_count" with
  | Except.error e => Except.error e
  | Except.ok a =>
    match getattr s "total_time" with
    | Except.error e => Except.error e
    | Except.ok b =>
      match getattr s "total_cputime" with
      | Except.error e => Except.error e
      | Except.ok c =>
        match Attr.asNum a, Attr.asNum b, Attr.asNum c with
        | Except.ok x, Except.ok y, Except.ok z =>
          Except.ok (get_interval (max x (max y z)))
        | Except.error e, _, _ => Except.error e
        | _, Except.error e, _ => Except.error e
        | _, _, Except.error e => Except.error e

/-- Rendering used by `str.format` on an attribute value (only ever reached
when the attribute lookups succeed). -/
def Attr.fmt : Attr → String
  | Attr.num n => toString n
  | Attr.str s => s
  | Attr.res _ => "<resources>"

/-- The `info` property: formats `self.call_count`, `self.total_cputime`,
`self.total_time` (each lookup can raise `AttributeError`). -/
def info (s : State) : Except PyErr String :=
  match getattr s "call_count" with
  | Except.error e => Except.error e
  | Except.ok a =>
    match getattr s "total_cputime" with
    | Except.error e => Except.error e
    | Except.ok b =>
      match getattr s "total_time" with
      | Except.error e => Except.error e
      | Except.ok c =>
        Except.ok ("Current Limit is RateLimit(call_count=" ++ Attr.fmt a ++
                   ",total_cputime=" ++ Attr.fmt b ++ ",total_time=" ++ Attr.fmt c ++ ")")

/-- All states reachable from `RateLimit(rate_type)` by a sequence of
`set_limit` calls (keeping the possibly part-mutated state when a call
raises, as the Python object would). -/
def runSetLimits (rate_type : String) (hs : List Headers) : State :=
  hs.foldl (fun s h => (set_limit h s).fst) (init rate_type)

end RateLimit

namespace InstagramRateLimit

/-- The literal `default_usage` dict of `InstagramRateLimit.set_limit`. -/
def default_usage : Json :=
  Json.obj [("call_count", Json.num 0), ("total_cputime", Json.num 0),
            ("total_time", Json.num 0), ("estimated_time_to_regain_access", Json.num 0)]

/-- An `InstagramRateLimit` instance: `type` is the literal `'instagram'`;
the three usage fields hold whatever the header data supplied (Python does
not check their types on assignment); `reset_at` is an integer timestamp. -/
structure State where
  type : String
  call_count : Json
  total_cputime : Json
  total_time : Json
  reset_at : Int

/-- `InstagramRateLimit()` with no keyword arguments: every field defaults
to 0 (and `type` to `'instagram'`). -/
def init : State :=
  ⟨"instagram", Json.num 0, Json.num 0, Json.num 0, 0⟩

/-- The body of the `try` block:
`usage_data = json.loads(...)`; `usage_data.get(id, [default_usage])[0]`.
`loads = none` is a `JSONDecodeError`; `.get` on a non-dict raises
`AttributeError`; `[0]` on an empty list (or empty string) raises
`IndexError`, on a dict raises `KeyError`, on a non-subscriptable value
raises `TypeError`, and on a nonempty string yields its first character. -/
def tryBody (loads : Option Json) (instagram_business_id : String) : Except PyErr Json :=
  match loads with
  | none => Except.error PyErr.jsonDecodeError
  | some (Json.obj kvs) =>
    match dictGet kvs instagram_business_id with
    | none => Except.ok default_usage
    | some (Json.arr []) => Except.error PyErr.indexError
    | some (Json.arr (x :: _)) => Except.ok x
    | some (Json.str t) =>
      if t = "" then Except.error PyErr.indexError
      else Except.ok (Json.str (t.take 1))
    | some (Json.obj _) => Except.error (PyErr.keyError "0")
    | some _ => Except.error (PyErr.typeError "object is not subscriptable")
  | some _ => Except.error (PyErr.attributeError "get")

/-- `except (TypeError, JSONDecodeError)`: exactly these two classes are
caught (and replaced by `default_usage`); `AttributeError`, `IndexError`
and `KeyError` propagate. -/
def caught : PyErr → Bool
  | PyErr.typeError _ => true
  | PyErr.jsonDecodeError => true
  | _ => false

/-- The `try`/`except` around the lookup: a caught exception falls back to
`default_usage`, any other exception propagates. -/
def getData (loads : Option Json) (instagram_business_id : String) : Except PyErr Json :=
  match tryBody loads instagram_business_id with
  | Except.ok d => Except.ok d
  | Except.error e => if caught e then Except.ok default_usage else Except.error e

/-- `data[key]` on the selected usage value (which need not be a dict):
a dict either yields the value or raises `KeyError`; strings and lists
raise `TypeError` when indexed by a string; so does everything else. -/
def pyGetItem (data : Json) (key : String) : Except PyErr Json :=
  match data with
  | Json.obj kvs =>
    match dictGet kvs key with
    | some v => Except.ok v
    | none => Except.error (PyErr.keyError key)
  | Json.str _ => Except.error (PyErr.typeError "string indices must be integers")
  | Json.arr _ => Except.error (PyErr.typeError "list indices must be integers")
  | _ => Except.error (PyErr.typeError "object is not subscriptable")

/-- `now + data['estimated_time_to_regain_access']`: defined for numbers
(Python treats `True`/`False` as 1/0 in arithmetic), `TypeError` otherwise. -/
def pyAddInt (now : Int) : Json → Except PyErr Int
  | Json.num n => Except.ok (now + n)
  | Json.bool b => Except.ok (now + if b then 1 else 0)
  | _ => Except.error (PyErr.typeError "unsupported operand type for +")

/-- `set_limit(headers, instagram_business_id)`: skipped entirely when the
header is absent or falsy; otherwise the guarded lookup runs and the four
assignments execute in source order (an exception leaves the fields
assigned so far, as in Python). -/
def set_limit (s : State) (headers : Headers) (instagram_business_id : String)
    (now : Int) : State × Option PyErr :=
  match dictGet headers "x-business-use-case-usage" with
  | none => (s, none)
  | some hv =>
    if hv.raw = "" then (s, none)
    else
      match getData hv.loads instagram_business_id with
      | Except.error e => (s, some e)
      | Except.ok data =>
        match pyGetItem data "call_count" with
        | Except.error e => (s, some e)
        | Except.ok cc =>
          let s1 : State := { s with call_count := cc }
          match pyGetItem data "total_cputime" with
          | Except.error e => (s1, some e)
          | Except.ok ct =>
            let s2 : State := { s1 with total_cputime := ct }
            match pyGetItem data "total_time" with
            | Except.error e => (s2, some e)
            | Except.ok tt =>
              let s3 : State := { s2 with total_time := tt }
              match pyGetItem data "estimated_time_to_regain_access" with
              | Except.error e => (s3, some e)
              | Except.ok est =>
                match pyAddInt now est with
                | Except.error e => (s3, some e)
                | Except.ok r => ({ s3 with reset_at := r }, none)

/-- A usage value as an integer for `max` / the tier comparisons
(booleans count as 0/1).  Python would raise `TypeError` either inside
`max` (mixed non-number operands) or at the first tier comparison in
`get_interval` (string operands); the model surfaces both as the same
uncaught `TypeError` from `get_sleep_interval`. -/
def ordVal : Json → Except PyErr Int
  | Json.num n => Except.ok n
  | Json.bool b => Except.ok (if b then 1 else 0)
  | _ => Except.error (PyErr.typeError "not supported between instances")

/-- `get_sleep_interval()`: exact remaining seconds while `reset_at` lies
in the future, else the tiered interval on
`max(call_count, total_time, total_cputime)`. -/
def get_sleep_interval (s : State) (now : Int) : Except PyErr Int :=
  if s.reset_at > now then Except.ok (s.reset_at - now)
  else
    match ordVal s.call_count, ordVal s.total_time, ordVal s.total_cputime with
    | Except.ok x, Except.ok y, Except.ok z => Except.ok (get_interval (max x (max y z)))
    | Except.error e, _, _ => Except.error e
    | _, Except.error e, _ => Except.error e
    | _, _, Except.error e => Except.error e

end InstagramRateLimit

/-! ## Helper lemmas about the dict model -/

theorem dictGet_dictSet_ne {α : Type} (d : List (String × α)) (k k2 : String) (v : α)
    (h : k2 ≠ k) : dictGet (dictSet d k v) k2 = dictGet d k2 := by
  induction d with
  | nil => simp [dictSet, dictGet, Ne.symm h]
  | cons p rest ih =>
    obtain ⟨pk, pv⟩ := p
    by_cases hpk : pk = k
    · subst hpk
      simp [dictSet, dictGet, Ne.symm h]
    · simp [dictSet, dictGet, hpk, ih]

theorem dictSet_dictSet {α : Type} (d : List (String × α)) (k : String) (v w : α) :
    dictSet (dictSet d k v) k w = dictSet d k w := by
  induction d with
  | nil => simp [dictSet]
  | cons p rest ih =>
    obtain ⟨pk, pv⟩ := p
    by_cases hpk : pk = k
    · simp [dictSet, hpk]
    · simp [dictSet, hpk, ih]

/-! ## Helper lemmas: `set_limit` only ever rebinds the `"resources"` key -/

theorem applyAppUsage_preserves (j : Json) (s : RateLimit.State) (name : String)
    (h : name ≠ "resources") :
    dictGet ((RateLimit.applyAppUsage s j).fst).instDict name = dictGet s.instDict name := by
  unfold RateLimit.applyAppUsage
  cases hb : RateLimit.buildItem j with
  | error e => simp only [hb]
  | ok r =>
    cases hres : dictGet s.instDict "resources" with
    | none => simp only [hb, hres]
    | some a =>
      cases a with
      | res rv =>
        cases rv with
        | dict d => simp only [hb, hres]; exact dictGet_dictSet_ne _ _ _ _ h
        | list l => simp only [hb, hres]
      | str t => simp only [hb, hres]
      | num n => simp only [hb, hres]

theorem setAppScope_preserves (u : Option Json) (s : RateLimit.State) (name : String)
    (h : name ≠ "resources") :
    dictGet ((RateLimit.setAppScope s u).fst).instDict name = dictGet s.instDict name := by
  cases u with
  | none => rfl
  | some j =>
    cases j with
    | null => rfl
    | bool b => exact applyAppUsage_preserves _ s name h
    | num n => exact applyAppUsage_preserves _ s name h
    | str t => exact applyAppUsage_preserves _ s name h
    | arr elems => exact applyAppUsage_preserves _ s name h
    | obj fields => exact applyAppUsage_preserves _ s name h

theorem businessLoop_preserves (kvs : List (String × Json)) :
    ∀ (s : RateLimit.State) (name : String), name ≠ "resources" →
    dictGet ((RateLimit.businessLoop s kvs).fst).instDict name = dictGet s.instDict name := by
  induction kvs with
  | nil => intro s name _; rfl
  | cons p rest ih =>
    intro s name h
    obtain ⟨pk, items⟩ := p
    unfold RateLimit.businessLoop
    cases hb : RateLimit.buildItems items with
    | error e => rfl
    | ok recs =>
      rw [ih _ name h]
      simp [dictGet_dictSet_ne _ _ _ _ h]

theorem setBusinessScope_preserves (u : Option Json) (s : RateLimit.State) (name : String)
    (h : name ≠ "resources") :
    dictGet ((RateLimit.setBusinessScope s u).fst).instDict name = dictGet s.instDict name := by
  cases u with
  | none => rfl
  | some j =>
    cases j with
    | obj kvs => exact businessLoop_preserves kvs s name h
    | null => rfl
    | bool b => rfl
    | num n => rfl
    | str t => rfl
    | arr l => rfl

theorem set_limit_preserves (headers : Headers) (s : RateLimit.State) (name : String)
    (h : name ≠ "resources") :
    dictGet ((RateLimit.set_limit headers s).fst).instDict name = dictGet s.instDict name := by
  unfold RateLimit.set_limit
  cases happ : RateLimit.setAppScope s (RateLimit.parse_headers headers "x-app-usage").fst with
  | mk s1 err =>
    have h1 : dictGet s1.instDict name = dictGet s.instDict name := by
      have h2 := setAppScope_preserves (RateLimit.parse_headers headers "x-app-usage").fst s name h
      rw [happ] at h2
      exact h2
    cases err with
    | none =>
      exact (setBusinessScope_preserves
        (RateLimit.parse_headers headers "x-business-use-case-usage").fst s1 name h).trans h1
    | some e =>
      exact h1

theorem runSetLimits_preserves (name : String) (h : name ≠ "resources") (hs : List Headers) :
    ∀ s : RateLimit.State,
    dictGet ((hs.foldl (fun s h2 => (RateLimit.set_limit h2 s).fst) s)).instDict name =
      dictGet s.instDict name := by
  induction hs with
  | nil => intro s; rfl
  | cons h2 rest ih =>
    intro s
    rw [List.foldl_cons, ih, set_limit_preserves _ _ _ h]

/-! ## Claims -/

/-- C3: `get_interval` returns 1 for `usage_count < 20` (negative values
included), 3 on `[20, 50)`, 5 on `[50, 80)`, 300 on `[80, 90)`, 600 on
`[90, 100)`, 1200 for `usage_count > 100`, and 1 at exactly 100 (the
boundary no branch handles, falling through to the default). -/
theorem c3_get_interval_tiers (n : Int) :
    (n < 20 → get_interval n = 1) ∧
    (20 ≤ n → n < 50 → get_interval n = 3) ∧
    (50 ≤ n → n < 80 → get_interval n = 5) ∧
    (80 ≤ n → n < 90 → get_interval n = 300) ∧
    (90 ≤ n → n < 100 → get_interval n = 600) ∧
    (100 < n → get_interval n = 1200) ∧
    (n = 100 → get_interval n = 1) := by
  unfold get_interval
  refine ⟨?_, ?_, ?_, ?_, ?_, ?_, ?_⟩ <;> intros <;> split_ifs <;> omega

/-- Witness for C3: one concrete input per tier, the unhandled boundary
at 100 included. -/
theorem c3_get_interval_tiers_witness :
    get_interval (-5) = 1 ∧ get_interval 30 = 3 ∧ get_interval 60 = 5 ∧
    get_interval 85 = 300 ∧ get_interval 95 = 600 ∧ get_interval 101 = 1200 ∧
    get_interval 100 = 1 :=
  ⟨(c3_get_interval_tiers (-5)).1 (by decide),
   (c3_get_interval_tiers 30).2.1 (by decide) (by decide),
   (c3_get_interval_tiers 60).2.2.1 (by decide) (by decide),
   (c3_get_interval_tiers 85).2.2.2.1 (by decide) (by decide),
   (c3_get_interval_tiers 95).2.2.2.2.1 (by decide) (by decide),
   (c3_get_interval_tiers 101).2.2.2.2.2.1 (by decide),
   (c3_get_interval_tiers 100).2.2.2.2.2.2 rfl⟩

/-- C9 counterexample: the interval policy is not monotonic non-decreasing,
because `get_interval 99 = 600` while `get_interval 100 = 1`. -/
theorem c9_counterexample :
    ¬ (∀ a b : Int, a ≤ b → get_interval a ≤ get_interval b) := by
  intro h
  have h2 := h 99 100 (by decide)
  rw [show get_interval 99 = 600 from by decide,
      show get_interval 100 = 1 from by decide] at h2
  exact absurd h2 (by decide)

/-- C9 (amended): the interval policy is monotonic non-decreasing on all
pairs `a ≤ b` whose upper value is not exactly 100; the unhandled boundary
at 100 (where the interval falls back to 1) is the only violation. -/
theorem c9_monotone_away_from_100 (a b : Int) (hab : a ≤ b) (hb : b ≠ 100) :
    get_interval a ≤ get_interval b := by
  unfold get_interval
  split_ifs <;> omega

/-- Witness for C9 (amended): applied across a tier boundary. -/
theorem c9_monotone_away_from_100_witness : get_interval 25 ≤ get_interval 85 :=
  c9_monotone_away_from_100 25 85 (by decide) (by decide)

/-- C1 (code bug): the claim says `get_sleep_interval()` returns the
interval of the worst usage field (1 when nothing has been set), but the
class stores parsed data only under `__dict__["resources"]` and never
creates a `call_count` attribute, so the call raises `AttributeError`
instead of returning anything — on the fresh tracker and equally after the
claim's own example `set_limit` call (which itself succeeds). -/
theorem c1_get_sleep_interval_raises :
    RateLimit.get_sleep_interval (RateLimit.init "app") =
      Except.error (PyErr.attributeError "call_count") ∧
    (RateLimit.set_limit
        [("x-app-usage", ⟨"usage", some (Json.obj
          [("call_count", Json.num 15), ("total_cputime", Json.num 0),
           ("total_time", Json.num 0)])⟩)]
        (RateLimit.init "app")).snd = none ∧
    RateLimit.get_sleep_interval
      (RateLimit.set_limit
        [("x-app-usage", ⟨"usage", some (Json.obj
          [("call_count", Json.num 15), ("total_cputime", Json.num 0),
           ("total_time", Json.num 0)])⟩)]
        (RateLimit.init "app")).fst =
      Except.error (PyErr.attributeError "call_count") :=
  ⟨rfl, rfl, rfl⟩

/-- C8 counterexample: a *present* value that is not valid JSON can go
unlogged.  The empty string is present under the key and is not valid JSON
(`json.loads("")` raises), yet the `if usage:` truthiness guard returns
`None` silently: the log is empty, contradicting the claim that a present
non-JSON value always logs an error containing the raw value. -/
theorem c8_counterexample :
    dictGet [("x-app-usage", HeaderValue.mk "" none)] "x-app-usage" =
      some (HeaderValue.mk "" none) ∧
    (HeaderValue.mk "" none).loads = none ∧
    RateLimit.parse_headers [("x-app-usage", HeaderValue.mk "" none)] "x-app-usage" =
      (none, []) :=
  ⟨rfl, rfl, rfl⟩

/-- C8 (amended): `parse_headers(headers, key)` returns nothing when `key`
is absent from the mapping (not an error); a present but falsy
(empty-string) value also yields nothing, silently, with no log; when the
value is present, nonempty and not valid JSON the function logs an error
line containing the raw value and returns nothing — and being a total
function it never propagates a failure to the caller in any case. -/
theorem c8_parse_headers_amended (headers : Headers) (key : String) :
    (dictGet headers key = none →
      RateLimit.parse_headers headers key = (none, [])) ∧
    (∀ hv : HeaderValue, dictGet headers key = some hv → hv.raw = "" →
      RateLimit.parse_headers headers key = (none, [])) ∧
    (∀ hv : HeaderValue, dictGet headers key = some hv → hv.raw ≠ "" →
      hv.loads = none →
      (RateLimit.parse_headers headers key).fst = none ∧
      ∃ pre post, (RateLimit.parse_headers headers key).snd = [pre ++ hv.raw ++ post]) := by
  refine ⟨?_, ?_, ?_⟩
  · intro h
    unfold RateLimit.parse_headers
    rw [h]
  · intro hv h hraw
    unfold RateLimit.parse_headers
    rw [h]
    simp [hraw]
  · intro hv h hraw hloads
    have hph : RateLimit.parse_headers headers key =
        (none, ["Exception in parse " ++ key ++ " data error. Usage is: " ++
                hv.raw ++ ". errors: JSONDecodeError"]) := by
      unfold RateLimit.parse_headers
      rw [h]
      simp only [hloads, if_neg hraw]
    rw [hph]
    exact ⟨rfl, "Exception in parse " ++ key ++ " data error. Usage is: ",
           ". errors: JSONDecodeError", rfl⟩

/-- Witness for C8 (amended): an absent key, a present-but-empty value
(silent, no log), and a present nonempty value that is not valid JSON
(logged with the raw value). -/
theorem c8_parse_headers_amended_witness :
    RateLimit.parse_headers [] "x-app-usage" = (none, []) ∧
    RateLimit.parse_headers [("x-app-usage", HeaderValue.mk "" none)] "x-app-usage" =
      (none, []) ∧
    (RateLimit.parse_headers [("x-app-usage", ⟨"not-json", none⟩)] "x-app-usage").fst = none ∧
    ∃ pre post,
      (RateLimit.parse_headers [("x-app-usage", ⟨"not-json", none⟩)] "x-app-usage").snd =
        [pre ++ "not-json" ++ post] := by
  refine ⟨(c8_parse_headers_amended [] "x-app-usage").1 rfl,
          (c8_parse_headers_amended [("x-app-usage", HeaderValue.mk "" none)]
            "x-app-usage").2.1 (HeaderValue.mk "" none) rfl rfl, ?_⟩
  exact (c8_parse_headers_amended [("x-app-usage", ⟨"not-json", none⟩)] "x-app-usage").2.2
    ⟨"not-json", none⟩ rfl (by decide) rfl

/-- C2: the App/Business tracker stores parsed records only inside
`__dict__["resources"]` and never creates `call_count`, `total_cputime` or
`total_time` instance attributes (nor any dynamic lookup), so in every
state reachable by any sequence of `set_limit` calls both
`get_sleep_interval()` and the `info` accessor raise `AttributeError`
(at the first attribute evaluated, `call_count`). -/
theorem c2_tracker_always_attribute_error (rate_type : String) (hs : List Headers) :
    RateLimit.get_sleep_interval (RateLimit.runSetLimits rate_type hs) =
      Except.error (PyErr.attributeError "call_count") ∧
    RateLimit.info (RateLimit.runSetLimits rate_type hs) =
      Except.error (PyErr.attributeError "call_count") := by
  have hcc : dictGet (RateLimit.runSetLimits rate_type hs).instDict "call_count" = none := by
    unfold RateLimit.runSetLimits
    rw [runSetLimits_preserves "call_count" (by decide) hs]
    rfl
  have hga : RateLimit.getattr (RateLimit.runSetLimits rate_type hs) "call_count" =
      Except.error (PyErr.attributeError "call_count") := by
    unfold RateLimit.getattr
    rw [hcc]
    rfl
  constructor
  · unfold RateLimit.get_sleep_interval
    rw [hga]
  · unfold RateLimit.info
    rw [hga]

/-- C7: the Entity tracker's `get_sleep_interval()` returns exactly
`reset_at - now` while `reset_at` is strictly in the future and otherwise
the tiered interval of `max(call_count, total_time, total_cputime)`; on
the spec's example (usage record with `call_count = 95` and
`estimated_time_to_regain_access = 120`, `set_limit` observed at time
1000) it returns 120 immediately and 600 once the 120 seconds elapsed. -/
theorem c7_instagram_get_sleep_interval :
    (∀ (ty : String) (cc ct tt reset now : Int),
      InstagramRateLimit.get_sleep_interval
          ⟨ty, Json.num cc, Json.num ct, Json.num tt, reset⟩ now =
        if reset > now then Except.ok (reset - now)
        else Except.ok (get_interval (max cc (max tt ct)))) ∧
    ((InstagramRateLimit.set_limit InstagramRateLimit.init
        [("x-business-use-case-usage", ⟨"usage", some (Json.obj
          [("123", Json.arr [Json.obj
            [("call_count", Json.num 95), ("total_cputime", Json.num 10),
             ("total_time", Json.num 10),
             ("estimated_time_to_regain_access", Json.num 120)]])])⟩)]
        "123" 1000).snd = none ∧
     InstagramRateLimit.get_sleep_interval
       (InstagramRateLimit.set_limit InstagramRateLimit.init
        [("x-business-use-case-usage", ⟨"usage", some (Json.obj
          [("123", Json.arr [Json.obj
            [("call_count", Json.num 95), ("total_cputime", Json.num 10),
             ("total_time", Json.num 10),
             ("estimated_time_to_regain_access", Json.num 120)]])])⟩)]
        "123" 1000).fst 1000 = Except.ok 120 ∧
     InstagramRateLimit.get_sleep_interval
       (InstagramRateLimit.set_limit InstagramRateLimit.init
        [("x-business-use-case-usage", ⟨"usage", some (Json.obj
          [("123", Json.arr [Json.obj
            [("call_count", Json.num 95), ("total_cputime", Json.num 10),
             ("total_time", Json.num 10),
             ("estimated_time_to_regain_access", Json.num 120)]])])⟩)]
        "123" 1000).fst 1120 = Except.ok 600) := by
  constructor
  · intro ty cc ct tt reset now
    by_cases hr : reset > now
    · simp [InstagramRateLimit.get_sleep_interval, hr]
    · simp [InstagramRateLimit.get_sleep_interval, InstagramRateLimit.ordVal, hr]
  · exact ⟨rfl, rfl, rfl⟩

/-- C5 counterexample: `set_limit` can raise.  A header mapping whose
`x-app-usage` value is valid JSON but not an object (here the number 123)
makes `RateLimitData(**app_usage)` raise `TypeError`, which propagates to
the caller, contradicting the claim that malformed usage payloads are
always recovered locally. -/
theorem c5_counterexample :
    (RateLimit.set_limit [("x-app-usage", ⟨"123", some (Json.num 123)⟩)]
      (RateLimit.init "app")).snd =
      some (PyErr.typeError "argument after ** must be a mapping") := rfl

/-- C5 (amended): only failures of JSON decoding itself are recovered
locally: whenever both usage header values are absent, empty or not valid
JSON, the App/Business tracker's `set_limit` returns with no exception and
leaves the state unchanged, and likewise the Entity tracker's `set_limit`
recovers (with the zero default record) from an undecodable header value;
a payload that decodes to JSON of an unexpected shape, by contrast, can
propagate an exception (see the counterexample). -/
theorem c5_decode_failures_recovered :
    (∀ (headers : Headers) (s : RateLimit.State),
      (RateLimit.parse_headers headers "x-app-usage").fst = none →
      (RateLimit.parse_headers headers "x-business-use-case-usage").fst = none →
      RateLimit.set_limit headers s = (s, none)) ∧
    (∀ (s : InstagramRateLimit.State) (headers : Headers) (igid : String) (now : Int)
        (hv : HeaderValue),
      dictGet headers "x-business-use-case-usage" = some hv → hv.raw ≠ "" →
      hv.loads = none →
      (InstagramRateLimit.set_limit s headers igid now).snd = none) := by
  constructor
  · intro headers s h1 h2
    unfold RateLimit.set_limit
    rw [h1, h2]
    rfl
  · intro s headers igid now hv h hraw hloads
    unfold InstagramRateLimit.set_limit
    rw [h]
    simp only [hloads, if_neg hraw]
    rfl

/-- Witness for C5 (amended): an undecodable value in each tracker. -/
theorem c5_decode_failures_recovered_witness :
    RateLimit.set_limit [("x-app-usage", ⟨"not-json", none⟩)] (RateLimit.init "app") =
      (RateLimit.init "app", none) ∧
    (InstagramRateLimit.set_limit InstagramRateLimit.init
      [("x-business-use-case-usage", ⟨"not-json", none⟩)] "123" 50).snd = none := by
  constructor
  · exact (c5_decode_failures_recovered).1 [("x-app-usage", ⟨"not-json", none⟩)]
      (RateLimit.init "app") rfl rfl
  · exact (c5_decode_failures_recovered).2 InstagramRateLimit.init
      [("x-business-use-case-usage", ⟨"not-json", none⟩)] "123" 50
      ⟨"not-json", none⟩ rfl (by decide) rfl

/-- C6 counterexample: when the `x-business-use-case-usage` header is
missing, the Entity tracker's `set_limit` is a no-op — it does not install
the zero-usage record, and `reset_at` stays at its prior value (0 here)
instead of becoming the current time (100). -/
theorem c6_counterexample :
    InstagramRateLimit.set_limit InstagramRateLimit.init [] "123" 100 =
      (InstagramRateLimit.init, none) ∧
    InstagramRateLimit.init.reset_at = 0 ∧ (0 : Int) ≠ 100 :=
  ⟨rfl, rfl, by decide⟩

/-- C6 (amended): `set_limit(headers, entity_id)` stores `call_count`,
`total_cputime` and `total_time` verbatim from the first element of the
entity's usage array and sets `reset_at = now + estimated_time_to_regain_access`,
overwriting any prior value; a malformed (undecodable) header value or an
absent entity id yields the zero-usage record with estimated time 0, so
`reset_at` becomes the current time — but a missing (or empty) header
leaves the state entirely unchanged rather than zeroing it. -/
theorem c6_instagram_set_limit_spec (s : InstagramRateLimit.State) (headers : Headers)
    (igid : String) (now : Int) :
    (dictGet headers "x-business-use-case-usage" = none →
      InstagramRateLimit.set_limit s headers igid now = (s, none)) ∧
    (∀ hv : HeaderValue, dictGet headers "x-business-use-case-usage" = some hv →
      hv.raw ≠ "" → hv.loads = none →
      InstagramRateLimit.set_limit s headers igid now =
        ({ s with call_count := Json.num 0, total_cputime := Json.num 0,
                  total_time := Json.num 0, reset_at := now }, none)) ∧
    (∀ (hv : HeaderValue) (kvs : List (String × Json)),
      dictGet headers "x-business-use-case-usage" = some hv → hv.raw ≠ "" →
      hv.loads = some (Json.obj kvs) → dictGet kvs igid = none →
      InstagramRateLimit.set_limit s headers igid now =
        ({ s with call_count := Json.num 0, total_cputime := Json.num 0,
                  total_time := Json.num 0, reset_at := now }, none)) ∧
    (∀ (hv : HeaderValue) (kvs dataKvs : List (String × Json)) (rest : List Json)
        (cc ct tt : Json) (est : Int),
      dictGet headers "x-business-use-case-usage" = some hv → hv.raw ≠ "" →
      hv.loads = some (Json.obj kvs) →
      dictGet kvs igid = some (Json.arr (Json.obj dataKvs :: rest)) →
      dictGet dataKvs "call_count" = some cc →
      dictGet dataKvs "total_cputime" = some ct →
      dictGet dataKvs "total_time" = some tt →
      dictGet dataKvs "estimated_time_to_regain_access" = some (Json.num est) →
      InstagramRateLimit.set_limit s headers igid now =
        ({ s with call_count := cc, total_cputime := ct, total_time := tt,
                  reset_at := now + est }, none)) := by
  refine ⟨?_, ?_, ?_, ?_⟩
  · intro h
    unfold InstagramRateLimit.set_limit
    rw [h]
  · intro hv h hraw hloads
    unfold InstagramRateLimit.set_limit
    rw [h]
    simp only [hloads, if_neg hraw]
    conv_rhs => rw [← Int.add_zero now]
    rfl
  · intro hv kvs h hraw hloads hid
    unfold InstagramRateLimit.set_limit
    rw [h]
    simp only [hloads, if_neg hraw, InstagramRateLimit.getData,
               InstagramRateLimit.tryBody, hid]
    conv_rhs => rw [← Int.add_zero now]
    rfl
  · intro hv kvs dataKvs rest cc ct tt est h hraw hloads hid hcc hct htt hest
    unfold InstagramRateLimit.set_limit
    rw [h]
    simp only [hloads, if_neg hraw, InstagramRateLimit.getData,
               InstagramRateLimit.tryBody, hid, InstagramRateLimit.pyGetItem,
               hcc, hct, htt, hest, InstagramRateLimit.pyAddInt]

/-- Witness for C6 (amended): the spec's example header observed at time
1000 stores the record verbatim and sets `reset_at = 1120`; the same
tracker fed an absent entity id gets the zero record with
`reset_at = now`. -/
theorem c6_instagram_set_limit_spec_witness :
    InstagramRateLimit.set_limit InstagramRateLimit.init
      [("x-business-use-case-usage", ⟨"usage", some (Json.obj
        [("123", Json.arr [Json.obj
          [("call_count", Json.num 95), ("total_cputime", Json.num 10),
           ("total_time", Json.num 10),
           ("estimated_time_to_regain_access", Json.num 120)]])])⟩)]
      "123" 1000 =
      ({ InstagramRateLimit.init with
          call_count := Json.num 95, total_cputime := Json.num 10,
          total_time := Json.num 10, reset_at := 1000 + 120 }, none) ∧
    InstagramRateLimit.set_limit InstagramRateLimit.init
      [("x-business-use-case-usage", ⟨"usage", some (Json.obj
        [("123", Json.arr [Json.obj
          [("call_count", Json.num 95), ("total_cputime", Json.num 10),
           ("total_time", Json.num 10),
           ("estimated_time_to_regain_access", Json.num 120)]])])⟩)]
      "456" 1000 =
      ({ InstagramRateLimit.init with
          call_count := Json.num 0, total_cputime := Json.num 0,
          total_time := Json.num 0, reset_at := 1000 }, none) := by
  constructor
  · exact (c6_instagram_set_limit_spec InstagramRateLimit.init _ "123" 1000).2.2.2
      ⟨"usage", some (Json.obj
        [("123", Json.arr [Json.obj
          [("call_count", Json.num 95), ("total_cputime", Json.num 10),
           ("total_time", Json.num 10),
           ("estimated_time_to_regain_access", Json.num 120)]])])⟩
      _ _ [] (Json.num 95) (Json.num 10) (Json.num 10) 120
      rfl (by decide) rfl rfl rfl rfl rfl rfl
  · exact (c6_instagram_set_limit_spec InstagramRateLimit.init _ "456" 1000).2.2.1
      ⟨"usage", some (Json.obj
        [("123", Json.arr [Json.obj
          [("call_count", Json.num 95), ("total_cputime", Json.num 10),
           ("total_time", Json.num 10),
           ("estimated_time_to_regain_access", Json.num 120)]])])⟩
      _ rfl (by decide) rfl rfl

/-- When every iteration's list comprehension succeeds, the business loop
ends with `resources` bound to the records of the *last* business id. -/
theorem businessLoop_append (front : List (String × Json)) :
    ∀ (s : RateLimit.State) (bid : String) (items : Json) (recs : List RateLimitData),
    (∀ p ∈ front, ∃ r, RateLimit.buildItems p.2 = Except.ok r) →
    RateLimit.buildItems items = Except.ok recs →
    RateLimit.businessLoop s (front ++ [(bid, items)]) =
      (⟨dictSet s.instDict "resources"
          (RateLimit.Attr.res (RateLimit.ResVal.list recs))⟩, none) := by
  induction front with
  | nil =>
    intro s bid items recs _ hlast
    unfold RateLimit.businessLoop
    simp only [List.nil_append, hlast]
    rfl
  | cons p rest ih =>
    intro s bid items recs hfront hlast
    obtain ⟨r0, hr0⟩ := hfront p (by simp)
    obtain ⟨pk, pitems⟩ := p
    rw [List.cons_append]
    unfold RateLimit.businessLoop
    simp only [hr0]
    rw [ih _ bid items recs (fun q hq => hfront q (by simp [hq])) hlast]
    simp only [dictSet_dictSet]

/-- C4 (amended): when `x-business-use-case-usage` parses as a JSON object
and every entry's usage array builds successfully, `set_limit` rebinds the
entire `resources` mapping once per business id, so the final state holds
exactly the list of UsageRecords of the *last* business id (not one record
per array entry across all ids) — and in particular the `"app"` record
installed from `x-app-usage` in step 1 of the same call is discarded. -/
theorem c4_business_replace_discards_app (headers : Headers) (s : RateLimit.State)
    (d0 : List (String × RateLimitData)) (hva hvb : HeaderValue)
    (appKvs : List (String × Json)) (appRec : RateLimitData)
    (front : List (String × Json)) (bid : String) (items : Json)
    (recs : List RateLimitData) :
    dictGet s.instDict "resources" =
      some (RateLimit.Attr.res (RateLimit.ResVal.dict d0)) →
    dictGet headers "x-app-usage" = some hva → hva.raw ≠ "" →
    hva.loads = some (Json.obj appKvs) →
    RateLimitData.ofKwargs appKvs = Except.ok appRec →
    dictGet headers "x-business-use-case-usage" = some hvb → hvb.raw ≠ "" →
    hvb.loads = some (Json.obj (front ++ [(bid, items)])) →
    (∀ p ∈ front, ∃ r, RateLimit.buildItems p.2 = Except.ok r) →
    RateLimit.buildItems items = Except.ok recs →
    RateLimit.set_limit headers s =
      (⟨dictSet s.instDict "resources"
          (RateLimit.Attr.res (RateLimit.ResVal.list recs))⟩, none) := by
  intro hres happ hrawa hloadsa hrec hbus hrawb hloadsb hfront hlast
  have hpa : (RateLimit.parse_headers headers "x-app-usage").fst = some (Json.obj appKvs) := by
    unfold RateLimit.parse_headers
    rw [happ]
    simp only [hloadsa, if_neg hrawa]
  have hpb : (RateLimit.parse_headers headers "x-business-use-case-usage").fst =
      some (Json.obj (front ++ [(bid, items)])) := by
    unfold RateLimit.parse_headers
    rw [hbus]
    simp only [hloadsb, if_neg hrawb]
  have hstep1 : RateLimit.setAppScope s (some (Json.obj appKvs)) =
      (⟨dictSet s.instDict "resources"
          (RateLimit.Attr.res (RateLimit.ResVal.dict (dictSet d0 "app" appRec)))⟩, none) := by
    unfold RateLimit.setAppScope RateLimit.applyAppUsage
    simp only [RateLimit.buildItem, hrec, hres]
  unfold RateLimit.set_limit
  rw [hpa, hstep1, hpb]
  show RateLimit.businessLoop
      ⟨dictSet s.instDict "resources"
        (RateLimit.Attr.res (RateLimit.ResVal.dict (dictSet d0 "app" appRec)))⟩
      (front ++ [(bid, items)]) = _
  rw [businessLoop_append front _ bid items recs hfront hlast]
  simp only [dictSet_dictSet]

/-- C4 counterexample: with two business ids each reporting one usage
entry, the final `resources` value is the one-record list of the *last*
id alone (`call_count = 22`), not one record per array entry across all
business ids (which would be two records). -/
theorem c4_counterexample :
    (RateLimit.set_limit
      [("x-business-use-case-usage", ⟨"usage", some (Json.obj
        [("1", Json.arr [Json.obj [("call_count", Json.num 11)]]),
         ("2", Json.arr [Json.obj [("call_count", Json.num 22)]])])⟩)]
      (RateLimit.init "app")).snd = none ∧
    dictGet (RateLimit.set_limit
      [("x-business-use-case-usage", ⟨"usage", some (Json.obj
        [("1", Json.arr [Json.obj [("call_count", Json.num 11)]]),
         ("2", Json.arr [Json.obj [("call_count", Json.num 22)]])])⟩)]
      (RateLimit.init "app")).fst.instDict "resources" =
      some (RateLimit.Attr.res (RateLimit.ResVal.list
        [⟨Json.num 22, Json.num 0, Json.num 0, Json.null, Json.null⟩])) :=
  ⟨rfl, rfl⟩

/-- Witness for C4 (amended): both headers present; after `set_limit` the
scope mapping is exactly the last (only) business id's record list, with
no `"app"` entry. -/
theorem c4_business_replace_discards_app_witness :
    RateLimit.set_limit
      [("x-app-usage", ⟨"usage", some (Json.obj [("call_count", Json.num 15)])⟩),
       ("x-business-use-case-usage", ⟨"usage", some (Json.obj
         [("2", Json.arr [Json.obj [("call_count", Json.num 22)]])])⟩)]
      (RateLimit.init "app") =
      (⟨dictSet (RateLimit.init "app").instDict "resources"
          (RateLimit.Attr.res (RateLimit.ResVal.list
            [⟨Json.num 22, Json.num 0, Json.num 0, Json.null, Json.null⟩]))⟩, none) := by
  exact c4_business_replace_discards_app _ (RateLimit.init "app") []
    ⟨"usage", some (Json.obj [("call_count", Json.num 15)])⟩
    ⟨"usage", some (Json.obj [("2", Json.arr [Json.obj [("call_count", Json.num 22)]])])⟩
    [("call_count", Json.num 15)]
    ⟨Json.num 15, Json.num 0, Json.num 0, Json.null, Json.null⟩
    [] "2" (Json.arr [Json.obj [("call_count", Json.num 22)]])
    [⟨Json.num 22, Json.num 0, Json.num 0, Json.null, Json.null⟩]
    rfl rfl (by decide) rfl rfl rfl (by decide) rfl (by simp) rfl

/-- The keyword names accepted by `RateLimitData.__init__`. -/
def knownKeys : List String :=
  ["call_count", "total_cputime", "total_time", "type",
   "estimated_time_to_regain_access"]

/-- Keyword assignment from any starting record: when every key is known
the construction succeeds, and every field whose key does not occur keeps
the starting record's value. -/
theorem ofKwargsFrom_defaults (kvs : List (String × Json)) :
    ∀ r0 : RateLimitData,
    (∀ k ∈ kvs.map Prod.fst, k ∈ knownKeys) →
    ∃ r, RateLimitData.ofKwargsFrom r0 kvs = Except.ok r ∧
      ("call_count" ∉ kvs.map Prod.fst → r.call_count = r0.call_count) ∧
      ("total_cputime" ∉ kvs.map Prod.fst → r.total_cputime = r0.total_cputime) ∧
      ("total_time" ∉ kvs.map Prod.fst → r.total_time = r0.total_time) ∧
      ("type" ∉ kvs.map Prod.fst → r.type = r0.type) ∧
      ("estimated_time_to_regain_access" ∉ kvs.map Prod.fst →
        r.estimated_time_to_regain_access = r0.estimated_time_to_regain_access) := by
  induction kvs with
  | nil =>
    intro r0 _
    exact ⟨r0, rfl, fun _ => rfl, fun _ => rfl, fun _ => rfl, fun _ => rfl, fun _ => rfl⟩
  | cons p rest ih =>
    obtain ⟨k, v⟩ := p
    intro r0 hknown
    have hk : k ∈ knownKeys := hknown k (by simp)
    have hrest : ∀ k2 ∈ rest.map Prod.fst, k2 ∈ knownKeys :=
      fun k2 h2 => hknown k2 (by simp [h2])
    simp only [knownKeys, List.mem_cons, List.not_mem_nil, or_false] at hk
    rcases hk with hk | hk | hk | hk | hk
    · subst hk
      obtain ⟨r, hr, h1, h2, h3, h4, h5⟩ := ih { r0 with call_count := v } hrest
      refine ⟨r, hr, ?_, ?_, ?_, ?_, ?_⟩
      · intro hno; exact absurd (by simp) hno
      · intro hno; exact h2 (fun hm => hno (by simp [hm]))
      · intro hno; exact h3 (fun hm => hno (by simp [hm]))
      · intro hno; exact h4 (fun hm => hno (by simp [hm]))
      · intro hno; exact h5 (fun hm => hno (by simp [hm]))
    · subst hk
      obtain ⟨r, hr, h1, h2, h3, h4, h5⟩ := ih { r0 with total_cputime := v } hrest
      refine ⟨r, hr, ?_, ?_, ?_, ?_, ?_⟩
      · intro hno; exact h1 (fun hm => hno (by simp [hm]))
      · intro hno; exact absurd (by simp) hno
      · intro hno; exact h3 (fun hm => hno (by simp [hm]))
      · intro hno; exact h4 (fun hm => hno (by simp [hm]))
      · intro hno; exact h5 (fun hm => hno (by simp [hm]))
    · subst hk
      obtain ⟨r, hr, h1, h2, h3, h4, h5⟩ := ih { r0 with total_time := v } hrest
      refine ⟨r, hr, ?_, ?_, ?_, ?_, ?_⟩
      · intro hno; exact h1 (fun hm => hno (by simp [hm]))
      · intro hno; exact h2 (fun hm => hno (by simp [hm]))
      · intro hno; exact absurd (by simp) hno
      · intro hno; exact h4 (fun hm => hno (by simp [hm]))
      · intro hno; exact h5 (fun hm => hno (by simp [hm]))
    · subst hk
      obtain ⟨r, hr, h1, h2, h3, h4, h5⟩ := ih { r0 with type := v } hrest
      refine ⟨r, hr, ?_, ?_, ?_, ?_, ?_⟩
      · intro hno; exact h1 (fun hm => hno (by simp [hm]))
      · intro hno; exact h2 (fun hm => hno (by simp [hm]))
      · intro hno; exact h3 (fun hm => hno (by simp [hm]))
      · intro hno; exact absurd (by simp) hno
      · intro hno; exact h5 (fun hm => hno (by simp [hm]))
    · subst hk
      obtain ⟨r, hr, h1, h2, h3, h4, h5⟩ :=
        ih { r0 with estimated_time_to_regain_access := v } hrest
      refine ⟨r, hr, ?_, ?_, ?_, ?_, ?_⟩
      · intro hno; exact h1 (fun hm => hno (by simp [hm]))
      · intro hno; exact h2 (fun hm => hno (by simp [hm]))
      · intro hno; exact h3 (fun hm => hno (by simp [hm]))
      · intro hno; exact h4 (fun hm => hno (by simp [hm]))
      · intro hno; exact absurd (by simp) hno

/-- C10: `RateLimitData(**kwargs)` from a partial JSON object (all keys
known, some omitted) succeeds without error, defaulting every omitted
numeric field to 0 and the omitted `type` and
`estimated_time_to_regain_access` fields to `None`. -/
theorem c10_partial_object_defaults (kvs : List (String × Json))
    (hknown : ∀ k ∈ kvs.map Prod.fst, k ∈ knownKeys) :
    ∃ r, RateLimitData.ofKwargs kvs = Except.ok r ∧
      ("call_count" ∉ kvs.map Prod.fst → r.call_count = Json.num 0) ∧
      ("total_cputime" ∉ kvs.map Prod.fst → r.total_cputime = Json.num 0) ∧
      ("total_time" ∉ kvs.map Prod.fst → r.total_time = Json.num 0) ∧
      ("type" ∉ kvs.map Prod.fst → r.type = Json.null) ∧
      ("estimated_time_to_regain_access" ∉ kvs.map Prod.fst →
        r.estimated_time_to_regain_access = Json.null) :=
  ofKwargsFrom_defaults kvs RateLimitData.defaults hknown

/-- Witness for C10: the spec's round-trip example (object missing
`total_time`, here carrying only `call_count`). -/
theorem c10_partial_object_defaults_witness :
    ∃ r, RateLimitData.ofKwargs
        [("call_count", Json.num 15), ("total_cputime", Json.num 2)] = Except.ok r ∧
      r.total_time = Json.num 0 ∧ r.type = Json.null ∧
      r.estimated_time_to_regain_access = Json.null := by
  obtain ⟨r, hr, h1, h2, h3, h4, h5⟩ := c10_partial_object_defaults
    [("call_count", Json.num 15), ("total_cputime", Json.num 2)]
    (by intro k hk; simp only [List.map, List.mem_cons, List.not_mem_nil, or_false] at hk
        rcases hk with hk | hk <;> simp [hk, knownKeys])
  exact ⟨r, hr, h3 (by simp), h4 (by simp), h5 (by simp)⟩
